import Mathlib

/-!
Shallow embedding of the game-control daily-quota enforcer (Go).

Source layout:
- `pkg/quota` (current version): `QuotaState` with accumulated seconds, reset
  scheduling and one-shot notification flags.
- `internal/controller.go`: the periodic `tick` of the control loop.
- `pkg/singleinstance`: marker-file mutual exclusion with stale-lock reclaim.

Modelling conventions:
- Go `int`/`int64` are modelled over `Int`; the quantities involved (seconds of
  play time, epoch seconds, minute thresholds) stay far inside the 64-bit
  range, so two's-complement wrap-around is not modelled.
- Go `time.Time` is modelled as epoch seconds (`Int`) under a fixed-offset
  (DST-free) clock at second granularity; `time.Date(Y, M, D, H, Min, 0, 0, loc)`
  for the civil day containing `now` becomes
  `(now / 86400) * 86400 + H*3600 + Min*60` (Euclidean division, which is floor
  division for the positive divisor 86400). `t.After(u)` is the strict `u < t`.
- The state file is modelled as a map from paths to parsed file data: a present
  file is either structurally malformed JSON or a well-formed key/value object;
  `encoding/json` marshalling emits all six tagged fields, unmarshalling
  defaults a missing field to the Go zero value and fails on a type mismatch.
- `config.Config` is reduced to the fields the quota and controller code read;
  `ResetTime` is kept in parsed form (hour, minute) because `Config.Validate`
  refuses to start the program unless `time.Parse("15:04", ResetTime)` succeeds.
- The `sync.Mutex` is dropped: every modelled operation is one atomic step.
-/

namespace GameControl

/-- Go integer division (`/` on `int64`) truncates toward zero. -/
def goDiv (a b : Int) : Int := Int.tdiv a b

/-- Seconds in 24 hours, the period of the reset schedule and also the
    single-instance staleness bound (`24 * time.Hour`). -/
def secondsPerDay : Int := 86400

/-- `now.After(t)` for epoch-second instants: strictly later. -/
def goAfter (now t : Int) : Bool := t < now

/-- The fields of `config.Config` read by the quota state and the controller.
    `resetHour:resetMinute` is the parsed form of the validated `"HH:MM"`
    `ResetTime` string. -/
structure Config where
  dailyLimit : Int
  resetHour : Int
  resetMinute : Int
  firstThreshold : Int
  finalThreshold : Int
  stateFile : String
  deriving DecidableEq, Repr

/-- The persisted/mutable fields of `quota.QuotaState` (the `cfg` pointer and
    the mutex are not part of the record). -/
structure QuotaState where
  accumulatedTime : Int
  lastResetTime : Int
  nextResetTime : Int
  firstWarningNotified : Bool
  finalWarningNotified : Bool
  limitNotified : Bool
  deriving DecidableEq, Repr

/-- `time.Date(now.Year, now.Month, now.Day, h, m, 0, 0, now.Location())`:
    the instant at `h:m` o'clock of the civil day containing `now`. -/
def todayAt (now h m : Int) : Int :=
  (now / secondsPerDay) * secondsPerDay + h * 3600 + m * 60

/-- The next-reset computation shared by `NewQuotaState` and `Reset`: today's
    occurrence of the configured time-of-day, pushed to tomorrow when `now` is
    already strictly past it. -/
def nextResetFrom (cfg : Config) (now : Int) : Int :=
  let nextReset := todayAt now cfg.resetHour cfg.resetMinute
  if goAfter now nextReset then nextReset + secondsPerDay else nextReset

/-- `GetAccumulatedMinutes`: accumulated seconds divided by 60 (Go `int64`
    division). -/
def GetAccumulatedMinutes (q : QuotaState) : Int :=
  goDiv q.accumulatedTime 60

/-- `GetRemainingMinutes`: daily limit minus accumulated minutes, clamped at
    zero. -/
def GetRemainingMinutes (cfg : Config) (q : QuotaState) : Int :=
  let accumulated := goDiv q.accumulatedTime 60
  let remaining := cfg.dailyLimit - accumulated
  if remaining < 0 then 0 else remaining

/-- `IsLimitExceeded`: accumulated minutes have reached the daily limit. -/
def IsLimitExceeded (cfg : Config) (q : QuotaState) : Bool :=
  cfg.dailyLimit ≤ goDiv q.accumulatedTime 60

/-- `AddTime(seconds)`: unvalidated addition onto the accumulated ledger. -/
def AddTime (q : QuotaState) (seconds : Int) : QuotaState :=
  { q with accumulatedTime := q.accumulatedTime + seconds }

/-- `ShouldReset`: `time.Now().After(time.Unix(q.NextResetTime, 0))` (the Go
    method also returns an always-`nil` error). -/
def ShouldReset (q : QuotaState) (now : Int) : Bool :=
  goAfter now q.nextResetTime

/-- `Reset`: zero the ledger, stamp `lastResetTime`, clear the three one-shot
    flags, recompute `nextResetTime` from the configured time-of-day. (The Go
    method re-parses `cfg.ResetTime` and can only fail on a malformed string,
    which `Config.Validate` rules out before the state is ever constructed.) -/
def Reset (cfg : Config) (now : Int) (q : QuotaState) : QuotaState :=
  { q with
    accumulatedTime := 0
    lastResetTime := now
    nextResetTime := nextResetFrom cfg now
    firstWarningNotified := false
    finalWarningNotified := false
    limitNotified := false }

/-- `ConsumeWarningNotifications`: returns `(first, final)` and the updated
    state. Final-threshold band is checked first and returns early; the first
    warning is only considered in the band `(finalThreshold, firstThreshold]`. -/
def ConsumeWarningNotifications (cfg : Config) (q : QuotaState) :
    Bool × Bool × QuotaState :=
  let accumulated := goDiv q.accumulatedTime 60
  let remaining0 := cfg.dailyLimit - accumulated
  let remaining := if remaining0 < 0 then 0 else remaining0
  if remaining ≤ cfg.finalThreshold then
    if !q.finalWarningNotified then
      (false, true, { q with finalWarningNotified := true })
    else
      (false, false, q)
  else if remaining ≤ cfg.firstThreshold ∧ cfg.finalThreshold < remaining then
    if !q.firstWarningNotified then
      (true, false, { q with firstWarningNotified := true })
    else
      (false, false, q)
  else
    (false, false, q)

/-- `ConsumeLimitNotification`: returns whether the limit-exceeded popup should
    fire on this call, and the updated state. -/
def ConsumeLimitNotification (cfg : Config) (q : QuotaState) :
    Bool × QuotaState :=
  if goDiv q.accumulatedTime 60 < cfg.dailyLimit then
    (false, q)
  else if q.limitNotified then
    (false, q)
  else
    (true, { q with limitNotified := true })

/-- A primitive JSON value as it appears in the persisted state object. -/
inductive JVal where
  | jint (n : Int)
  | jbool (b : Bool)
  deriving DecidableEq, Repr

/-- Parsed content of a file on disk: either structurally malformed JSON or a
    well-formed object of key/value pairs. -/
inductive FileData where
  | malformed
  | wellFormed (kvs : List (String × JVal))
  deriving DecidableEq, Repr

/-- The filesystem as seen through `os.Stat`/`os.ReadFile`/`os.WriteFile`:
    a map from paths to file data (`none` = no file at that path). Reads and
    writes themselves are assumed to succeed; only existence and parseability
    vary. -/
def FS : Type := String → Option FileData

/-- `json.MarshalIndent` on `QuotaState`: emits all six tagged fields. -/
def marshalQuota (q : QuotaState) : List (String × JVal) :=
  [("accumulatedTime", .jint q.accumulatedTime),
   ("lastResetTime", .jint q.lastResetTime),
   ("nextResetTime", .jint q.nextResetTime),
   ("firstWarningNotified", .jbool q.firstWarningNotified),
   ("finalWarningNotified", .jbool q.finalWarningNotified),
   ("limitNotified", .jbool q.limitNotified)]

/-- First value bound to key `k` in the JSON object. -/
def jLookup (kvs : List (String × JVal)) (k : String) : Option JVal :=
  (kvs.find? (fun p => p.1 == k)).map Prod.snd

/-- `encoding/json` decoding of an `int64` field: a missing key leaves the Go
    zero value `0`; a value of the wrong type is an unmarshalling error. -/
def jFieldInt (kvs : List (String × JVal)) (k : String) : Option Int :=
  match jLookup kvs k with
  | none => some 0
  | some (.jint n) => some n
  | some (.jbool _) => none

/-- `encoding/json` decoding of a `bool` field: a missing key leaves the Go
    zero value `false`; a value of the wrong type is an unmarshalling error. -/
def jFieldBool (kvs : List (String × JVal)) (k : String) : Option Bool :=
  match jLookup kvs k with
  | none => some false
  | some (.jbool b) => some b
  | some (.jint _) => none

/-- `json.Unmarshal` into a zero-valued `QuotaState`. -/
def unmarshalQuota (kvs : List (String × JVal)) : Option QuotaState := do
  let acc ← jFieldInt kvs "accumulatedTime"
  let lastReset ← jFieldInt kvs "lastResetTime"
  let nextReset ← jFieldInt kvs "nextResetTime"
  let firstW ← jFieldBool kvs "firstWarningNotified"
  let finalW ← jFieldBool kvs "finalWarningNotified"
  let limitN ← jFieldBool kvs "limitNotified"
  pure { accumulatedTime := acc
         lastResetTime := lastReset
         nextResetTime := nextReset
         firstWarningNotified := firstW
         finalWarningNotified := finalW
         limitNotified := limitN }

/-- The error cases of `quota.LoadFromFile`. -/
inductive LoadError where
  | fileNotExist (path : String)
  | parseFailed
  deriving DecidableEq, Repr

/-- `SaveToFile`: marshal the state and write it to `cfg.StateFile`. -/
def SaveToFile (cfg : Config) (q : QuotaState) (fs : FS) : FS :=
  fun p => if p = cfg.stateFile then some (.wellFormed (marshalQuota q)) else fs p

/-- `LoadFromFile`: an absent state file is itself an error (the function's own
    comment: if the file does not exist, return an error); an existing but
    unparseable file is a distinct parse error. -/
def LoadFromFile (cfg : Config) (fs : FS) : Except LoadError QuotaState :=
  match fs cfg.stateFile with
  | none => .error (.fileNotExist cfg.stateFile)
  | some .malformed => .error .parseFailed
  | some (.wellFormed kvs) =>
    match unmarshalQuota kvs with
    | none => .error .parseFailed
    | some st => .ok st

/-- A user-visible popup dispatched by the controller during one tick. -/
inductive Notice where
  | limitExceeded
  | finalWarning (remainingMinutes : Int)
  | firstWarning (remainingMinutes : Int)
  deriving DecidableEq, Repr

/-- Observable outcome of one `Controller.tick`: the quota state afterwards,
    whether the reset-check fired, the popups dispatched, the PIDs handed to
    `TerminateWithRetry`, and whether the periodic save ran. -/
structure TickResult where
  state : QuotaState
  resetFired : Bool
  notices : List Notice
  terminated : List Int
  saved : Bool
  deriving DecidableEq, Repr

/-- `Controller.tick`, strictly ordered: (1) reset check, (2) process scan
    (`scan` is the scanner's result; an error aborts the tick), (3) accrue a
    fixed 5 seconds when at least one tracked process is present, (4) enforce
    when the limit is exceeded (one-shot popup, terminate every scanned PID),
    else (5) at most one warning popup, (6) save when at least one minute has
    passed since the last successful save. Notifier and terminate failures are
    logged only and do not alter state, so they are not modelled. -/
def tick (cfg : Config) (now : Int) (scan : Except Unit (List Int))
    (sinceLastSaveSec : Int) (q : QuotaState) : TickResult :=
  let shouldReset := ShouldReset q now
  let q1 := if shouldReset then Reset cfg now q else q
  match scan with
  | .error _ =>
    { state := q1, resetFired := shouldReset, notices := [],
      terminated := [], saved := false }
  | .ok procs =>
    let q2 := if 0 < procs.length then AddTime q1 5 else q1
    if IsLimitExceeded cfg q2 then
      let r := ConsumeLimitNotification cfg q2
      { state := r.2
        resetFired := shouldReset
        notices := if r.1 then [.limitExceeded] else []
        terminated := procs
        saved := 60 ≤ sinceLastSaveSec }
    else
      let w := ConsumeWarningNotifications cfg q2
      { state := w.2.2
        resetFired := shouldReset
        notices :=
          if w.2.1 then [.finalWarning (GetRemainingMinutes cfg w.2.2)]
          else if w.1 then [.firstWarning (GetRemainingMinutes cfg w.2.2)]
          else []
        terminated := []
        saved := 60 ≤ sinceLastSaveSec }

/-- Parsed content of the single-instance marker file: first line the owner
    PID, second line the acquisition epoch; `none` marks a line that is absent
    or does not parse as an integer (`strconv` failure). -/
structure Marker where
  pidField : Option Int
  tsField : Option Int
  deriving DecidableEq, Repr

/-- `lockOwnedByActiveProcess`: an unreadable/contentless marker is not owned;
    a marker whose timestamp parses and lies more than 24 hours in the past is
    stale regardless of liveness; otherwise ownership is the liveness probe of
    the recorded PID. `alive` is the `isProcessRunning` oracle. -/
def lockOwnedByActiveProcess (alive : Int → Bool) (now : Int)
    (content : Option Marker) : Bool :=
  match content with
  | none => false
  | some mk =>
    match mk.pidField with
    | none => false
    | some pid =>
      if pid ≤ 0 then false
      else
        match mk.tsField with
        | some ts =>
          if secondsPerDay < now - ts then false else alive pid
        | none => alive pid

/-- Result of `singleinstance.Acquire` (the distinct I/O-failure exit exists in
    the source but is unreachable in this failure-free filesystem model). -/
inductive AcquireResult where
  | acquired
  | alreadyRunning
  | ioFailure
  deriving DecidableEq, Repr

/-- One iteration of the `Acquire` retry loop: `Sum.inl` exits the loop with a
    result and the final marker-file content, `Sum.inr` falls through to the
    next attempt after deleting an inactive marker. Creating the marker is
    atomic (`O_CREATE|O_EXCL`): it succeeds exactly when no marker exists, and
    writes the caller's PID and the current epoch. -/
def acquireAttempt (alive : Int → Bool) (now selfPid : Int)
    (fsm : Option Marker) : (AcquireResult × Option Marker) ⊕ Option Marker :=
  match fsm with
  | none => .inl (.acquired, some { pidField := some selfPid, tsField := some now })
  | some mk =>
    if lockOwnedByActiveProcess alive now (some mk) then
      .inl (.alreadyRunning, some mk)
    else
      .inr none

/-- `Acquire`: at most two create attempts; a second collision (or an active
    owner) yields `alreadyRunning`. -/
def Acquire (alive : Int → Bool) (now selfPid : Int)
    (fsm : Option Marker) : AcquireResult × Option Marker :=
  match acquireAttempt alive now selfPid fsm with
  | .inl r => r
  | .inr fsm1 =>
    match acquireAttempt alive now selfPid fsm1 with
    | .inl r => r
    | .inr fsm2 => (.alreadyRunning, fsm2)

/-- The configuration fixture of the spec's worked examples: daily limit 120
    minutes, first threshold 15, final threshold 5, reset at 08:00. -/
def cfg120 : Config :=
  { dailyLimit := 120, resetHour := 8, resetMinute := 0,
    firstThreshold := 15, finalThreshold := 5, stateFile := "state.json" }

/-- A quota state with `secs` accumulated seconds and everything else fresh. -/
def freshState (secs : Int) : QuotaState :=
  { accumulatedTime := secs, lastResetTime := 0, nextResetTime := 0,
    firstWarningNotified := false, finalWarningNotified := false,
    limitNotified := false }

/-- C10: `AddTime` performs no validation: the ledger becomes exactly the old
    value plus the argument, a negative argument strictly decreases it, and
    monotone non-decrease holds exactly under the caller-side precondition
    that the argument is non-negative. -/
theorem addTime_unvalidated_sum (q : QuotaState) (s : Int) :
    (AddTime q s).accumulatedTime = q.accumulatedTime + s ∧
    (s < 0 → (AddTime q s).accumulatedTime < q.accumulatedTime) ∧
    (0 ≤ s → q.accumulatedTime ≤ (AddTime q s).accumulatedTime) := by
  refine ⟨rfl, fun h => ?_, fun h => ?_⟩ <;> (simp only [AddTime]; omega)

theorem addTime_unvalidated_sum_witness :
    (AddTime (freshState 100) (-30)).accumulatedTime = 70 ∧
    (AddTime (freshState 100) (-30)).accumulatedTime < 100 ∧
    (freshState 100).accumulatedTime ≤ (AddTime (freshState 100) 30).accumulatedTime := by
  refine ⟨by decide, ?_, ?_⟩
  · exact (addTime_unvalidated_sum (freshState 100) (-30)).2.1 (by decide)
  · exact (addTime_unvalidated_sum (freshState 100) 30).2.2 (by decide)

/-- C5 counterexample: at the instant exactly equal to `nextResetTime`,
    `ShouldReset` returns `false`, contradicting the claim that it is true at
    and after that instant. -/
theorem shouldReset_exact_instant_cex :
    ShouldReset { freshState 0 with nextResetTime := 100 } 100 = false ∧
    ({ freshState 0 with nextResetTime := 100 } : QuotaState).nextResetTime ≤ 100 := by
  decide

/-- C5 (amended): `ShouldReset` is true iff the current time is strictly after
    `nextResetTime`; at the instant exactly equal to `nextResetTime` it still
    returns `false`. -/
theorem shouldReset_iff_strictly_after (q : QuotaState) (now : Int) :
    (ShouldReset q now = true ↔ q.nextResetTime < now) ∧
    ShouldReset q q.nextResetTime = false := by
  constructor
  · simp [ShouldReset, goAfter]
  · simp [ShouldReset, goAfter]

/-- C9: saving a state and loading it back from the same path succeeds and
    reproduces the record verbatim — in particular the accumulated seconds and
    all three notification flags. -/
theorem saveToFile_loadFromFile_roundtrip (cfg : Config) (q : QuotaState) (fs : FS) :
    LoadFromFile cfg (SaveToFile cfg q fs) = .ok q := by
  have h : SaveToFile cfg q fs cfg.stateFile = some (.wellFormed (marshalQuota q)) := by
    simp [SaveToFile]
  cases q
  simp only [LoadFromFile, h]
  rfl

/-- C1 counterexample: on a filesystem with no file at the configured
    state-file path, `LoadFromFile` returns an error (the dedicated
    file-does-not-exist error), contradicting the claim that a missing file is
    not an error. -/
theorem loadFromFile_missing_file_cex :
    LoadFromFile cfg120 (fun _ => none) =
      .error (.fileNotExist "state.json") := rfl

/-- C1 (amended): `LoadFromFile` reports a missing state file as an error, and
    a malformed existing file as a different error; the two cases remain
    distinguishable, but absence is an error rather than a non-error. -/
theorem loadFromFile_missing_vs_malformed (cfg : Config) (fs : FS) :
    (fs cfg.stateFile = none →
      LoadFromFile cfg fs = .error (.fileNotExist cfg.stateFile)) ∧
    (fs cfg.stateFile = some .malformed →
      LoadFromFile cfg fs = .error .parseFailed) ∧
    (∀ p, LoadError.fileNotExist p ≠ LoadError.parseFailed) := by
  refine ⟨?_, ?_, ?_⟩
  · intro h
    simp [LoadFromFile, h]
  · intro h
    simp [LoadFromFile, h]
  · intro p h
    cases h

theorem loadFromFile_missing_vs_malformed_witness :
    LoadFromFile cfg120 (fun _ => none) = .error (.fileNotExist "state.json") ∧
    LoadFromFile cfg120 (fun _ => some .malformed) = .error .parseFailed := by
  constructor
  · exact (loadFromFile_missing_vs_malformed cfg120 (fun _ => none)).1 rfl
  · exact (loadFromFile_missing_vs_malformed cfg120 (fun _ => some .malformed)).2.1 rfl

/-- C4 counterexample: when `now` is exactly the configured reset instant
    (08:00:00 equals epoch 28800 on day zero), `Reset` schedules
    `nextResetTime = now`, which is not strictly after the current time as the
    claim requires. -/
theorem reset_exact_instant_cex :
    (Reset cfg120 28800 (freshState 999)).nextResetTime = 28800 ∧
    ¬ (28800 : Int) < (Reset cfg120 28800 (freshState 999)).nextResetTime := by
  decide

/-- C4 (amended): `Reset` zeroes the ledger, clears all three fired flags, and
    recomputes `nextResetTime` as the earliest occurrence of the configured
    time-of-day at or after now: tomorrow's occurrence when now is strictly
    past today's, today's occurrence otherwise — including `nextResetTime =
    now` when now is exactly today's reset instant. The hour/minute bounds are
    those guaranteed by parsing a valid `"HH:MM"` string. -/
theorem reset_clears_and_schedules (cfg : Config) (now : Int) (q : QuotaState)
    (h1 : 0 ≤ cfg.resetHour) (h2 : cfg.resetHour < 24)
    (h3 : 0 ≤ cfg.resetMinute) (h4 : cfg.resetMinute < 60) :
    (Reset cfg now q).accumulatedTime = 0 ∧
    (Reset cfg now q).firstWarningNotified = false ∧
    (Reset cfg now q).finalWarningNotified = false ∧
    (Reset cfg now q).limitNotified = false ∧
    (Reset cfg now q).lastResetTime = now ∧
    now ≤ (Reset cfg now q).nextResetTime ∧
    (Reset cfg now q).nextResetTime < now + secondsPerDay ∧
    (Reset cfg now q).nextResetTime % secondsPerDay =
      cfg.resetHour * 3600 + cfg.resetMinute * 60 ∧
    (todayAt now cfg.resetHour cfg.resetMinute < now →
      (Reset cfg now q).nextResetTime =
        todayAt now cfg.resetHour cfg.resetMinute + secondsPerDay) := by
  refine ⟨rfl, rfl, rfl, rfl, rfl, ?_, ?_, ?_, ?_⟩ <;>
    (simp only [Reset, nextResetFrom, todayAt, goAfter, secondsPerDay,
        decide_eq_true_eq]) <;>
    split_ifs <;> omega

theorem reset_clears_and_schedules_witness :
    (Reset cfg120 30000 (freshState 7)).accumulatedTime = 0 ∧
    (Reset cfg120 30000 (freshState 7)).limitNotified = false ∧
    (30000 : Int) ≤ (Reset cfg120 30000 (freshState 7)).nextResetTime ∧
    (Reset cfg120 30000 (freshState 7)).nextResetTime =
      todayAt 30000 cfg120.resetHour cfg120.resetMinute + secondsPerDay :=
  ⟨(reset_clears_and_schedules cfg120 30000 (freshState 7)
      (by decide) (by decide) (by decide) (by decide)).1,
   (reset_clears_and_schedules cfg120 30000 (freshState 7)
      (by decide) (by decide) (by decide) (by decide)).2.2.2.1,
   (reset_clears_and_schedules cfg120 30000 (freshState 7)
      (by decide) (by decide) (by decide) (by decide)).2.2.2.2.2.1,
   (reset_clears_and_schedules cfg120 30000 (freshState 7)
      (by decide) (by decide) (by decide) (by decide)).2.2.2.2.2.2.2.2
      (by decide)⟩

/-- C3: `ConsumeLimitNotification` is false (and leaves the state unchanged)
    below the limit, fires exactly on the first call at or above the limit in
    a cycle (setting the one-shot flag), is false on every later call of the
    cycle, and `Reset` clears the flag so the next exceedance fires again. -/
theorem consumeLimit_once_per_cycle (cfg : Config) (q : QuotaState) (now : Int) :
    (GetAccumulatedMinutes q < cfg.dailyLimit →
      ConsumeLimitNotification cfg q = (false, q)) ∧
    (cfg.dailyLimit ≤ GetAccumulatedMinutes q → q.limitNotified = false →
      ConsumeLimitNotification cfg q = (true, { q with limitNotified := true })) ∧
    (q.limitNotified = true → ConsumeLimitNotification cfg q = (false, q)) ∧
    (Reset cfg now q).limitNotified = false := by
  refine ⟨fun h => ?_, fun h hflag => ?_, fun hflag => ?_, rfl⟩
  · simp only [ConsumeLimitNotification, GetAccumulatedMinutes] at h ⊢
    simp [h]
  · simp only [ConsumeLimitNotification, GetAccumulatedMinutes] at h ⊢
    rw [if_neg (by omega), hflag]
    simp
  · simp only [ConsumeLimitNotification, hflag]
    split_ifs <;> rfl

theorem consumeLimit_once_per_cycle_witness :
    IsLimitExceeded cfg120 (freshState (120 * 60)) = true ∧
    ConsumeLimitNotification cfg120 (freshState (120 * 60)) =
      (true, { freshState (120 * 60) with limitNotified := true }) ∧
    ConsumeLimitNotification cfg120 { freshState (120 * 60) with limitNotified := true } =
      (false, { freshState (120 * 60) with limitNotified := true }) ∧
    (Reset cfg120 0 { freshState (120 * 60) with limitNotified := true }).limitNotified = false :=
  ⟨by decide,
   (consumeLimit_once_per_cycle cfg120 (freshState (120 * 60)) 0).2.1
     (by decide) (by decide),
   (consumeLimit_once_per_cycle cfg120 { freshState (120 * 60) with limitNotified := true } 0).2.2.1
     (by decide),
   (consumeLimit_once_per_cycle cfg120 { freshState (120 * 60) with limitNotified := true } 0).2.2.2⟩

/-- C2: under `cfg120` (daily limit 120, thresholds 15 and 5), a call with
    remaining minutes in the half-open band `(5, 15]` fires the first warning
    exactly once — `(true, false)` when the flag is still clear, `(false,
    false)` ever after — and a call with remaining minutes at or below 5 never
    fires the first warning, fires the final warning exactly once, and returns
    `(false, false)` once the final flag is set. -/
theorem consumeWarning_band_and_tiebreak (q : QuotaState) :
    (5 < GetRemainingMinutes cfg120 q → GetRemainingMinutes cfg120 q ≤ 15 →
      (q.firstWarningNotified = false →
        ConsumeWarningNotifications cfg120 q =
          (true, false, { q with firstWarningNotified := true })) ∧
      (q.firstWarningNotified = true →
        ConsumeWarningNotifications cfg120 q = (false, false, q))) ∧
    (GetRemainingMinutes cfg120 q ≤ 5 →
      (ConsumeWarningNotifications cfg120 q).1 = false ∧
      (q.finalWarningNotified = false →
        ConsumeWarningNotifications cfg120 q =
          (false, true, { q with finalWarningNotified := true })) ∧
      (q.finalWarningNotified = true →
        ConsumeWarningNotifications cfg120 q = (false, false, q))) := by
  simp only [GetRemainingMinutes, ConsumeWarningNotifications, cfg120]
  constructor
  · intro h5 h15
    rw [if_neg (not_le.mpr h5), if_pos ⟨h15, h5⟩]
    constructor
    · intro hflag
      simp [hflag]
    · intro hflag
      simp [hflag]
  · intro h5
    rw [if_pos h5]
    refine ⟨?_, fun hflag => ?_, fun hflag => ?_⟩
    · split_ifs <;> rfl
    · simp [hflag]
    · simp [hflag]

theorem consumeWarning_band_and_tiebreak_witness :
    ConsumeWarningNotifications cfg120 (freshState ((120 - 14) * 60)) =
      (true, false, { freshState ((120 - 14) * 60) with firstWarningNotified := true }) ∧
    ConsumeWarningNotifications cfg120
        { freshState ((120 - 14) * 60) with firstWarningNotified := true } =
      (false, false, { freshState ((120 - 14) * 60) with firstWarningNotified := true }) ∧
    ConsumeWarningNotifications cfg120 (freshState ((120 - 4) * 60)) =
      (false, true, { freshState ((120 - 4) * 60) with finalWarningNotified := true }) ∧
    ConsumeWarningNotifications cfg120
        { freshState ((120 - 4) * 60) with finalWarningNotified := true } =
      (false, false, { freshState ((120 - 4) * 60) with finalWarningNotified := true }) :=
  ⟨((consumeWarning_band_and_tiebreak (freshState ((120 - 14) * 60))).1
      (by decide) (by decide)).1 (by decide),
   ((consumeWarning_band_and_tiebreak
        { freshState ((120 - 14) * 60) with firstWarningNotified := true }).1
      (by decide) (by decide)).2 (by decide),
   ((consumeWarning_band_and_tiebreak (freshState ((120 - 4) * 60))).2
      (by decide)).2.1 (by decide),
   ((consumeWarning_band_and_tiebreak
        { freshState ((120 - 4) * 60) with finalWarningNotified := true }).2
      (by decide)).2.2 (by decide)⟩

/-- The prior state of the C6 counterexample: 600 accumulated seconds, a
    pending reset (`nextResetTime` long past), and the limit flag set. -/
def qScanErr : QuotaState :=
  { freshState 600 with nextResetTime := 100, limitNotified := true }

/-- C6 counterexample: the reset check (step 1) runs before the scan (step 2),
    so a tick whose scan fails can still mutate the quota state — here the
    pending reset zeroes 600 accumulated seconds and clears the limit flag
    even though the scan errored. -/
theorem tick_scan_error_still_resets_cex :
    (tick cfg120 28801 (.error ()) 0 qScanErr).state ≠ qScanErr ∧
    (tick cfg120 28801 (.error ()) 0 qScanErr).state.accumulatedTime = 0 ∧
    qScanErr.accumulatedTime = 600 ∧
    (tick cfg120 28801 (.error ()) 0 qScanErr).state.limitNotified = false ∧
    qScanErr.limitNotified = true := by
  decide

/-- C6 (amended): a scan failure ends the tick immediately after the
    reset-check step: nothing is accrued past that point, no popup is
    dispatched, no process is terminated and no save runs; the state after the
    tick is exactly the state left by the reset check, so whenever the reset
    check did not fire the tick leaves the quota state completely unchanged. -/
theorem tick_scan_error_ends_early (cfg : Config) (now sls : Int) (q : QuotaState) :
    (tick cfg now (.error ()) sls q).notices = [] ∧
    (tick cfg now (.error ()) sls q).terminated = [] ∧
    (tick cfg now (.error ()) sls q).saved = false ∧
    (tick cfg now (.error ()) sls q).state =
      (if ShouldReset q now then Reset cfg now q else q) ∧
    (ShouldReset q now = false → (tick cfg now (.error ()) sls q).state = q) := by
  refine ⟨rfl, rfl, rfl, rfl, fun h => ?_⟩
  simp only [tick, h]
  rfl

theorem tick_scan_error_ends_early_witness :
    (tick cfg120 50 (.error ()) 0 { freshState 600 with nextResetTime := 100 }).notices = [] ∧
    (tick cfg120 50 (.error ()) 0 { freshState 600 with nextResetTime := 100 }).state =
      { freshState 600 with nextResetTime := 100 } :=
  ⟨(tick_scan_error_ends_early cfg120 50 0 { freshState 600 with nextResetTime := 100 }).1,
   (tick_scan_error_ends_early cfg120 50 0 { freshState 600 with nextResetTime := 100 }).2.2.2.2
     (by decide)⟩

theorem consumeLimit_preserves_accumulated (cfg : Config) (q : QuotaState) :
    (ConsumeLimitNotification cfg q).2.accumulatedTime = q.accumulatedTime := by
  simp only [ConsumeLimitNotification]
  split_ifs <;> rfl

theorem consumeWarning_preserves_accumulated (cfg : Config) (q : QuotaState) :
    (ConsumeWarningNotifications cfg q).2.2.accumulatedTime = q.accumulatedTime := by
  simp only [ConsumeWarningNotifications]
  split_ifs <;> rfl

/-- C7: with a successful scan, the tick accrues exactly the fixed 5-second
    tick interval onto the state left by the reset check when at least one
    tracked process was found — independently of how many were found — and
    accrues nothing when none was found. -/
theorem tick_presence_based_accrual (cfg : Config) (now sls : Int)
    (q : QuotaState) (ps : List Int) :
    (ps ≠ [] →
      (tick cfg now (.ok ps) sls q).state.accumulatedTime =
        (if ShouldReset q now then Reset cfg now q else q).accumulatedTime + 5) ∧
    (ps = [] →
      (tick cfg now (.ok ps) sls q).state.accumulatedTime =
        (if ShouldReset q now then Reset cfg now q else q).accumulatedTime) := by
  constructor
  · intro hne
    have hlen : 0 < ps.length := List.length_pos.mpr hne
    simp only [tick, if_pos hlen]
    split_ifs <;>
      simp [consumeLimit_preserves_accumulated, consumeWarning_preserves_accumulated, AddTime]
  · intro he
    subst he
    simp only [tick, List.length_nil, lt_self_iff_false, if_false]
    split_ifs <;>
      simp [consumeLimit_preserves_accumulated, consumeWarning_preserves_accumulated]

theorem tick_presence_based_accrual_witness :
    (tick cfg120 0 (.ok [41, 42]) 0 (freshState 600)).state.accumulatedTime = 605 ∧
    (tick cfg120 0 (.ok ([] : List Int)) 0 (freshState 600)).state.accumulatedTime = 600 := by
  constructor
  · have h := (tick_presence_based_accrual cfg120 0 0 (freshState 600) [41, 42]).1
      (by decide)
    simpa using h
  · have h := (tick_presence_based_accrual cfg120 0 0 (freshState 600) []).2 rfl
    simpa using h

/-- C8: against an existing marker with a parseable positive owner PID and a
    parseable timestamp, `Acquire` fails with the already-running error when
    the owner is alive and the marker is at most 24 hours old, and otherwise
    (owner dead, or marker strictly older than 24 hours) deletes the marker,
    retries the atomic create once, and succeeds, leaving a fresh marker owned
    by the caller. -/
theorem acquire_live_blocks_stale_reclaims (alive : Int → Bool)
    (now selfPid pid ts : Int) (hpid : 0 < pid) :
    (alive pid = true → now - ts ≤ secondsPerDay →
      Acquire alive now selfPid (some { pidField := some pid, tsField := some ts }) =
        (.alreadyRunning, some { pidField := some pid, tsField := some ts })) ∧
    ((alive pid = false ∨ secondsPerDay < now - ts) →
      Acquire alive now selfPid (some { pidField := some pid, tsField := some ts }) =
        (.acquired, some { pidField := some selfPid, tsField := some now })) := by
  constructor
  · intro halive hfresh
    simp only [Acquire, acquireAttempt, lockOwnedByActiveProcess,
      if_neg (not_le.mpr hpid), if_neg (not_lt.mpr hfresh), halive]
    rfl
  · intro hstale
    have howned : lockOwnedByActiveProcess alive now
        (some { pidField := some pid, tsField := some ts }) = false := by
      simp only [lockOwnedByActiveProcess, if_neg (not_le.mpr hpid)]
      rcases hstale with hdead | hold
      · split_ifs <;> simp [hdead]
      · rw [if_pos hold]
    simp only [Acquire, acquireAttempt, howned]
    rfl

theorem acquire_live_blocks_stale_reclaims_witness :
    Acquire (fun p => p == 5) 100000 77 (some { pidField := some 5, tsField := some 99000 }) =
      (.alreadyRunning, some { pidField := some 5, tsField := some 99000 }) ∧
    Acquire (fun _ => false) 100000 77 (some { pidField := some 5, tsField := some 99000 }) =
      (.acquired, some { pidField := some 77, tsField := some 100000 }) ∧
    Acquire (fun p => p == 5) 200000 77 (some { pidField := some 5, tsField := some 10 }) =
      (.acquired, some { pidField := some 77, tsField := some 200000 }) :=
  ⟨(acquire_live_blocks_stale_reclaims (fun p => p == 5) 100000 77 5 99000
      (by decide)).1 (by decide) (by decide),
   (acquire_live_blocks_stale_reclaims (fun _ => false) 100000 77 5 99000
      (by decide)).2 (Or.inl rfl),
   (acquire_live_blocks_stale_reclaims (fun p => p == 5) 200000 77 5 10
      (by decide)).2 (Or.inr (by decide))⟩

end GameControl
